import Mathlib

/-!
# dockerhub2db: paginated fetch with bounded retry, record transform and idempotent insert

A shallow embedding of `main.go`.  The program talks to two outside parties: the HTTP
server (through `client.R().Get`) and the PostgreSQL table `docker_images` (through
`conn.Exec`).  Both are made explicit:

* every call that leaves the process is appended to a trace of `Event`s carried in a
  `World`, together with the rows of the table;
* what the outside answers is given by an `Env`: the server's reply to a GET as a function
  of the requests it has received so far, the JSON decoder, and the failures of the
  datastore other than the key conflict.

Loops bounded by the code (`maxRetries`, a slice) are structural recursions; the
pagination loop, which follows server-supplied cursors, takes fuel.
-/

namespace DockerHub2DB

/-! ## Data model -/

/-- Go struct `Categories`. -/
structure Categories where
  Name : String
  Slug : String
  deriving DecidableEq, Repr

/-- Go struct `DockerImage`.  Every exported field is visible to `json.Unmarshal`, the
untagged ones (`StorageSize`, `ImageType`, `Category1` .. `Category4`) under their own
name. -/
structure DockerImage where
  Name : String := ""
  Namespace : String := ""
  Description : String := ""
  PullCount : Int := 0
  StarCount : Int := 0
  IsPrivate : Bool := false
  LastUpdated : String := ""
  MediaTypes : List String := []
  ContentTypes : List String := []
  StorageSize : String := ""
  StorageSizeInt : Int := 0
  Categories : List Categories := []
  Category : String := ""
  ImageType : String := ""
  Category1 : String := ""
  Category2 : String := ""
  Category3 : String := ""
  Category4 : String := ""
  deriving DecidableEq, Repr

/-- Go struct `DockerHubRepoResponse`: one page of the repository listing. -/
structure DockerHubRepoResponse where
  Count : Int := 0
  Next : String := ""
  Results : List DockerImage := []
  deriving DecidableEq, Repr

/-- The fifteen arguments `insertRepoToDB` passes to `conn.Exec`, one per column of
`docker_images`, in the order of the INSERT statement. -/
structure Row where
  name : String
  namespace_ : String
  description : String
  pull_count : Int
  star_count : Int
  is_private : Bool
  last_updated : String
  media_types : String
  content_types : String
  storage_size : String
  category1 : String
  category2 : String
  category3 : String
  category4 : String
  image_type : String
  deriving DecidableEq, Repr

/-- What the program reads of a `*resty.Response`: `StatusCode()` and `Body()`. -/
structure Response where
  statusCode : Nat
  body : String
  deriving DecidableEq, Repr

/-- The pair `(resp, err)` returned by `client.R().Get(apiURL)`.  resty never returns a nil
response together with a nil error, so the pair is either a response without error, or an
error with a response that may be nil. -/
inductive Reply where
  | ok (resp : Response)
  | failed (resp : Option Response) (err : String)
  deriving DecidableEq, Repr

/-- The `resp` component of a reply (`none` is Go's nil). -/
def Reply.resp : Reply → Option Response
  | .ok r => some r
  | .failed r _ => r

/-- The `err` component of a reply (`none` is Go's nil). -/
def Reply.err : Reply → Option String
  | .ok _ => none
  | .failed _ e => some e

/-- Line 213: `resp != nil && resp.StatusCode() == http.StatusTooManyRequests`. -/
def Reply.tooManyRequests (r : Reply) : Bool :=
  match r.resp with
  | some resp => resp.statusCode == 429
  | none => false

/-- Line 223: `err == nil && resp.StatusCode() != http.StatusTooManyRequests`. -/
def Reply.endsLoop : Reply → Bool
  | .ok resp => resp.statusCode != 429
  | .failed _ _ => false

/-- The calls by which the program acts on the outside, in the order it makes them. -/
inductive Event where
  | get (url : String)
  | sleep (seconds : Nat)
  | exec (row : Row)
  | stdout (text : String)
  | log (text : String)
  deriving DecidableEq, Repr

/-- The state outside the process: the calls made so far (oldest first) and the rows of
`docker_images`. -/
structure World where
  trace : List Event
  rows : List Row
  deriving DecidableEq, Repr

/-- Append one event to the trace. -/
def World.emit (w : World) (e : Event) : World :=
  { w with trace := w.trace ++ [e] }

/-- The URLs of the GET requests in a trace, in order. -/
def requests (tr : List Event) : List String :=
  tr.filterMap fun e => match e with
    | .get url => some url
    | _ => none

/-- The durations (seconds) of the backoff waits in a trace, in order. -/
def waits (tr : List Event) : List Nat :=
  tr.filterMap fun e => match e with
    | .sleep s => some s
    | _ => none

/-- The rows handed to the sink (`conn.Exec` calls) in a trace, in order. -/
def handed (tr : List Event) : List Row :=
  tr.filterMap fun e => match e with
    | .exec row => some row
    | _ => none

/-- The behaviour of the outside.
* `server h url`: the reply to a GET of `url` when `h` lists the URLs requested before;
* `unmarshal body`: `json.Unmarshal` into a `DockerHubRepoResponse`;
* `sinkErr h row`: the error of `conn.Exec` for `row`, other than the key conflict, when
  `h` lists the rows handed before (`none`: the statement executes). -/
structure Env where
  server : List String → String → Reply
  unmarshal : String → Except String DockerHubRepoResponse
  sinkErr : List Row → Row → Option String

/-! ## makeRequestWithRetry -/

/-- Constant `maxRetries` of `makeRequestWithRetry`. -/
def maxRetries : Nat := 5

/-- The `for retries = 0; retries < maxRetries; retries++` loop of `makeRequestWithRetry`.
The first argument is `maxRetries - retries`, the iterations left; the result is the
value of `retries`, `resp` and `err` when the loop is left, and the world. -/
def retryLoop (env : Env) (apiURL : String) :
    Nat → Nat → Option Response → Option String → World →
      Nat × Option Response × Option String × World
  | 0, retries, resp, err, w => (retries, resp, err, w)
  | left + 1, retries, _, _, w =>
    let reply := env.server (requests w.trace) apiURL
    let w := w.emit (.get apiURL)
    if reply.tooManyRequests then
      let waitTime := 10
      let w := w.emit (.stdout ("Received 429 Too Many Requests, retrying after "
        ++ toString waitTime ++ " seconds...\n"))
      let w := w.emit (.sleep waitTime)
      retryLoop env apiURL left (retries + 1) reply.resp reply.err w
    else if reply.endsLoop then
      (retries, reply.resp, reply.err, w)
    else
      retryLoop env apiURL left (retries + 1) reply.resp reply.err w

/-- Function `makeRequestWithRetry`: the pair `(resp, err)` it returns and the world. -/
def makeRequestWithRetry (env : Env) (apiURL : String) (w : World) :
    (Option Response × Option String) × World :=
  match retryLoop env apiURL maxRetries 0 none none w with
  | (retries, resp, err, w) =>
    if retries = maxRetries then
      ((none, some ("max retries exceeded for URL: " ++ apiURL)), w)
    else
      ((resp, err), w)

/-! ## The per-record transform -/

/-- Quotient `num / den` rounded to the nearest integer, ties to the even one. -/
def roundHalfEven (num den : Nat) : Nat :=
  let q := num / den
  let r := num % den
  if 2 * r > den ∨ (2 * r = den ∧ q % 2 = 1) then q + 1 else q

/-- Number of low bits a 53-bit significand cannot hold: the least `e` with
`n < 2 ^ (53 + e)`, found by halving (the first argument bounds the halvings). -/
def excessBits : Nat → Nat → Nat
  | 0, _ => 0
  | fuel + 1, n => if n < 2 ^ 53 then 0 else excessBits fuel (n / 2) + 1

/-- Go conversion `float64(size)` of a non-negative integer: the nearest integer with a
53-bit significand, ties to even (IEEE 754 binary64; exact below `2 ^ 53`).  The result is
the integer value of the float. -/
def float64OfNat (n : Nat) : Nat :=
  let e := excessBits n n
  roundHalfEven n (2 ^ e) * 2 ^ e

/-- The decimal text of `h` hundredths: integer part, point, two digits. -/
def decimal2 (h : Nat) : String :=
  toString (h / 100) ++ "." ++ toString (h % 100 / 10) ++ toString (h % 10)

/-- The text `fmt.Sprintf("%.2f", x)` for the non-negative float `x = num / den`, `den` a
power of two (so that `x` is a float when `num` is): the exact value rounded to hundredths,
ties to even, written as integer part, point and two digits. -/
def formatFixed2 (num den : Nat) : String :=
  decimal2 (roundHalfEven (num * 100) den)

/-- Function `convertStorageSize` (`size` is an int64). -/
def convertStorageSize (size : Int) : String :=
  if size ≥ 2 ^ 30 then
    formatFixed2 (float64OfNat size.toNat) (2 ^ 30) ++ " GB"
  else if size ≥ 2 ^ 20 then
    formatFixed2 (float64OfNat size.toNat) (2 ^ 20) ++ " MB"
  else if size ≥ 2 ^ 10 then
    formatFixed2 (float64OfNat size.toNat) (2 ^ 10) ++ " KB"
  else
    toString size ++ " Bytes"

/-- Lines 140-168 of `fetchAndInsertImages`: what the loop body does to its copy `repo` of
a decoded record before handing it to `insertRepoToDB`. -/
def transform (imageType : String) (repo : DockerImage) : DockerImage :=
  let repo := { repo with ImageType := imageType }
  let repo :=
    if repo.Categories.length > 0 then
      let categoryNames := repo.Categories.map fun category => category.Name
      let repo := { repo with Category := ", ".intercalate categoryNames }
      let repo :=
        if h : categoryNames.length > 0 then { repo with Category1 := categoryNames[0] }
        else repo
      let repo :=
        if h : categoryNames.length > 1 then { repo with Category2 := categoryNames[1] }
        else repo
      let repo :=
        if h : categoryNames.length > 2 then { repo with Category3 := categoryNames[2] }
        else repo
      let repo :=
        if h : categoryNames.length > 3 then { repo with Category4 := categoryNames[3] }
        else repo
      repo
    else
      { repo with Category := "Uncategorized" }
  { repo with StorageSize := convertStorageSize repo.StorageSizeInt }

/-! ## The sink -/

/-- The arguments of `conn.Exec` in `insertRepoToDB`. -/
def toRow (repo : DockerImage) : Row :=
  let mediaTypes := ", ".intercalate repo.MediaTypes
  let contentTypes := ", ".intercalate repo.ContentTypes
  { name := repo.Name, namespace_ := repo.Namespace, description := repo.Description,
    pull_count := repo.PullCount, star_count := repo.StarCount,
    is_private := repo.IsPrivate, last_updated := repo.LastUpdated,
    media_types := mediaTypes, content_types := contentTypes,
    storage_size := repo.StorageSize, category1 := repo.Category1,
    category2 := repo.Category2, category3 := repo.Category3,
    category4 := repo.Category4, image_type := repo.ImageType }

/-- Two rows collide on the key `(name, namespace)` of `docker_images`. -/
def sameKey (a b : Row) : Bool :=
  a.name == b.name && a.namespace_ == b.namespace_

/-- The statement `INSERT INTO docker_images ... ON CONFLICT (name, namespace) DO NOTHING`
executed by `conn.Exec`: a failure of the datastore leaves the table as it is and is
returned; otherwise the row is added unless a row with its key is there, and nil is
returned either way. -/
def exec (env : Env) (row : Row) (w : World) : Option String × World :=
  let w1 := w.emit (.exec row)
  match env.sinkErr (handed w.trace) row with
  | some e => (some e, w1)
  | none =>
    if w.rows.any (sameKey row) then (none, w1)
    else (none, { w1 with rows := w1.rows ++ [row] })

/-- Function `insertRepoToDB`. -/
def insertRepoToDB (env : Env) (repo : DockerImage) (w : World) : Option String × World :=
  exec env (toRow repo) w

/-! ## fetchAndInsertImages -/

/-- How a call of `fetchAndInsertImages` ends: it returns nil, returns an error, or
dereferences a nil response. -/
inductive Outcome where
  | ok
  | error (msg : String)
  | nilDeref
  deriving DecidableEq, Repr

/-- The loop `for _, repo := range repoResponse.Results` of `fetchAndInsertImages`. -/
def insertLoop (env : Env) (imageType : String) : List DockerImage → World → World
  | [], w => w
  | repo :: rest, w =>
    let repo := transform imageType repo
    let w := w.emit (.stdout (repo.StorageSize ++ "\n"))
    match insertRepoToDB env repo w with
    | (some err, w) =>
      insertLoop env imageType rest
        (w.emit (.log ("Error inserting repository data: " ++ err)))
    | (none, w) =>
      insertLoop env imageType rest
        (w.emit (.stdout ("Inserted repository: " ++ repo.Namespace ++ "/" ++ repo.Name ++ "\n")))

/-- Function `fetchAndInsertImages`.  The first argument bounds the iterations of
`for apiURL != ""`; `none` means the bound was reached with a cursor still to follow. -/
def fetchAndInsertImages (env : Env) (imageType : String) :
    Nat → String → World → Option (Outcome × World)
  | 0, apiURL, w => if apiURL = "" then some (.ok, w) else none
  | fuel + 1, apiURL, w =>
    if apiURL = "" then some (.ok, w)
    else
      match makeRequestWithRetry env apiURL w with
      | ((_, some err), w) => some (.error err, w)
      | ((none, none), w) => some (.nilDeref, w)
      | ((some resp, none), w) =>
        match env.unmarshal resp.body with
        | .error err => some (.error ("Error parsing repositories JSON: " ++ err), w)
        | .ok repoResponse =>
          let w := insertLoop env imageType repoResponse.Results w
          fetchAndInsertImages env imageType fuel repoResponse.Next w

/-! ## Chains of pages -/

/-- The GET of `url`, when `h` lists the URLs requested before, is answered without error
by a response that is not a 429 and whose body decodes to the page `p`. -/
def servesPage (env : Env) (h : List String) (url : String) (p : DockerHubRepoResponse) :
    Bool :=
  match env.server h url with
  | .ok resp =>
    resp.statusCode != 429 &&
      (match env.unmarshal resp.body with
        | .ok q => q == p
        | .error _ => false)
  | .failed _ _ => false

/-- The server serves the chain `ps` from `url` on: `url` is not empty and is answered by
the first page, whose next-cursor is the URL of the second page, and so on; `h` lists the
URLs requested before. -/
def ServesChain (env : Env) : List String → String → List DockerHubRepoResponse → Prop
  | _, _, [] => True
  | h, url, p :: ps =>
    url ≠ "" ∧ servesPage env h url p = true ∧ ServesChain env (h ++ [url]) p.Next ps

/-- The URLs of the pages of a chain that starts at `url`, in chain order. -/
def chainURLs : String → List DockerHubRepoResponse → List String
  | _, [] => []
  | url, p :: ps => url :: chainURLs p.Next ps

/-- The cursor that follows a chain that starts at `url`: the next-cursor of its last
page (`url` itself for the empty chain). -/
def lastCursor : String → List DockerHubRepoResponse → String
  | url, [] => url
  | _, p :: ps => lastCursor p.Next ps

/-- The rows that the records of one page make, in record order. -/
def pageRows (imageType : String) (p : DockerHubRepoResponse) : List Row :=
  p.Results.map fun repo => toRow (transform imageType repo)

/-- The rows that the records of the pages of a chain make, in page and record order. -/
def chainRows (imageType : String) : List DockerHubRepoResponse → List Row
  | [] => []
  | p :: ps => pageRows imageType p ++ chainRows imageType ps

/-- The world after the pages of a chain that starts at `url` have been fetched and their
records handed to the sink. -/
def afterPages (env : Env) (imageType : String) :
    String → List DockerHubRepoResponse → World → World
  | _, [], w => w
  | url, p :: ps, w =>
    afterPages env imageType p.Next ps
      (insertLoop env imageType p.Results (makeRequestWithRetry env url w).2)

/-- The fetch of the page at `url` fails: `makeRequestWithRetry` returns an error, or the
body of the response it returns does not decode. -/
def fetchFails (env : Env) (url : String) (w : World) : Bool :=
  match (makeRequestWithRetry env url w).1 with
  | (_, some _) => true
  | (none, none) => false
  | (some resp, none) =>
    match env.unmarshal resp.body with
    | .error _ => true
    | .ok _ => false

/-- Every row of `rs` has its key `(name, namespace)` in the table `rows`. -/
def Covered (rows rs : List Row) : Prop :=
  ∀ r, r ∈ rs → rows.any (sameKey r) = true

/-! ## The size format as the specification words it -/

/-- The value `h / 100` is a nearest hundredth of `num / den`: they differ by at most one
half of a hundredth. -/
def IsNearestHundredth (num den h : Nat) : Prop :=
  2 * Int.natAbs (100 * (num : Int) - (h : Int) * (den : Int)) ≤ den

instance (num den h : Nat) : Decidable (IsNearestHundredth num den h) := by
  unfold IsNearestHundredth; infer_instance

/-- The specification's "`num / den` written with exactly 2 decimal places followed by
`unit`": `text` is the decimal text of a nearest hundredth of `num / den`, then `unit`. -/
def WrittenWith2Decimals (num den : Nat) (unit text : String) : Prop :=
  ∃ h : Nat, IsNearestHundredth num den h ∧ text = decimal2 h ++ unit

/-- The size format the specification gives for the byte count `s`, where `v` is the
value that is divided (the specification divides `s` itself). -/
def SizeFormat (s : Int) (v : Nat) (text : String) : Prop :=
  (2 ^ 30 ≤ s → WrittenWith2Decimals v (2 ^ 30) " GB" text)
  ∧ (s < 2 ^ 30 → 2 ^ 20 ≤ s → WrittenWith2Decimals v (2 ^ 20) " MB" text)
  ∧ (s < 2 ^ 20 → 2 ^ 10 ≤ s → WrittenWith2Decimals v (2 ^ 10) " KB" text)
  ∧ (s < 2 ^ 10 → text = toString s ++ " Bytes")

/-! ## The category derivation as the specification words it -/

/-- The category names `c1 .. cn` of a decoded record. -/
def categoryNamesOf (repo : DockerImage) : List String :=
  repo.Categories.map fun category => category.Name

/-- The display string: "Uncategorized" for no name, else the names joined with ", ". -/
def categoryDisplay (names : List String) : String :=
  if names.length = 0 then "Uncategorized" else ", ".intercalate names

/-- The slot `Category_i` (`i` from 1): `c_i` when `i ≤ n`, unset (empty) when `i > n`. -/
def categorySlot (names : List String) (i : Nat) : String :=
  names.getD (i - 1) ""

/-- The category derivation of the specification for the decoded record `repo`, stated of
the record `out` that is handed to the sink. -/
def CategoryDerivation (repo out : DockerImage) : Prop :=
  out.Category = categoryDisplay (categoryNamesOf repo)
  ∧ (toRow out).category1 = categorySlot (categoryNamesOf repo) 1
  ∧ (toRow out).category2 = categorySlot (categoryNamesOf repo) 2
  ∧ (toRow out).category3 = categorySlot (categoryNamesOf repo) 3
  ∧ (toRow out).category4 = categorySlot (categoryNamesOf repo) 4

instance (repo out : DockerImage) : Decidable (CategoryDerivation repo out) := by
  unfold CategoryDerivation; infer_instance

/-! ## Environments and inputs used as examples -/

/-- An environment whose server answers 429 to its first `n` requests and 200 with an
empty JSON object afterwards, whose decoder reads that object as the empty last page, and
whose datastore never fails. -/
def throttledEnv (n : Nat) : Env where
  server := fun h _ => if h.length < n then .ok ⟨429, ""⟩ else .ok ⟨200, "\x7b\x7d"⟩
  unmarshal := fun body => if body = "\x7b\x7d" then .ok {} else .error "unexpected end of JSON input"
  sinkErr := fun _ _ => none

/-- The root URL of the official images. -/
def libraryURL : String := "https://hub.docker.com/v2/repositories/library/"

/-- The empty world: nothing requested, empty table. -/
def emptyWorld : World := ⟨[], []⟩

/-- An environment whose every GET fails in the transport with "connection refused". -/
def refusingEnv : Env where
  server := fun _ _ => .failed (some ⟨0, ""⟩) "dial tcp: connect: connection refused"
  unmarshal := fun _ => .error "unexpected end of JSON input"
  sinkErr := fun _ _ => none

/-- The body Docker Hub sends with a 404. -/
def notFoundBody : String := "\x7b\"message\":\"object not found\",\"errinfo\":\x7b\x7d\x7d"

/-- An environment whose server answers every GET with 404 and `notFoundBody`; the
decoder reads that JSON object, which has none of the keys of a page, as the zero page,
as `json.Unmarshal` does. -/
def notFoundEnv : Env where
  server := fun _ _ => .ok ⟨404, notFoundBody⟩
  unmarshal := fun body =>
    if body = notFoundBody then .ok {} else .error "invalid character"
  sinkErr := fun _ _ => none

/-- A decoded record without categories whose JSON carried a key `Category3`. -/
def presetSlotImage : DockerImage :=
  { Name := "alpine", Namespace := "library", Category3 := "x" }

/-- A decoded record with five categories. -/
def fiveCategoriesImage : DockerImage :=
  { Name := "nginx", Namespace := "library",
    Categories := [⟨"a", "a"⟩, ⟨"b", "b"⟩, ⟨"c", "c"⟩, ⟨"d", "d"⟩, ⟨"e", "e"⟩] }

/-- The URL of the second page of the library listing. -/
def libraryPage2URL : String := "https://hub.docker.com/v2/repositories/library/?page=2"

/-- First page of the example listing: two records and the cursor to the second page. -/
def libraryPage1 : DockerHubRepoResponse :=
  { Count := 3, Next := libraryPage2URL,
    Results := [
      { Name := "alpine", Namespace := "library", StorageSizeInt := 2048 },
      { Name := "nginx", Namespace := "library", StorageSizeInt := 5 * 2 ^ 20,
        Categories := [⟨"Web Servers", "web-servers"⟩] }] }

/-- Second and last page of the example listing: one record, empty cursor. -/
def libraryPage2 : DockerHubRepoResponse :=
  { Count := 3, Next := "",
    Results := [{ Name := "redis", Namespace := "library", StorageSizeInt := 500 }] }

/-- The server of the example listing: the library URL is answered with the first page,
the URL of page 2 with the second, everything else with a 404. -/
def libraryServer (_ : List String) (url : String) : Reply :=
  if url = libraryURL then .ok ⟨200, "page 1"⟩
  else if url = libraryPage2URL then .ok ⟨200, "page 2"⟩
  else .ok ⟨404, notFoundBody⟩

/-- The decoder of the example listing. -/
def libraryUnmarshal (body : String) : Except String DockerHubRepoResponse :=
  if body = "page 1" then .ok libraryPage1
  else if body = "page 2" then .ok libraryPage2
  else if body = notFoundBody then .ok {}
  else .error "invalid character"

/-- The example listing with a datastore that never fails. -/
def libraryEnv : Env where
  server := libraryServer
  unmarshal := libraryUnmarshal
  sinkErr := fun _ _ => none

/-- The example listing with a datastore that fails on every write of "nginx". -/
def failingSinkEnv : Env where
  server := libraryServer
  unmarshal := libraryUnmarshal
  sinkErr := fun _ row => if row.name = "nginx" then some "conn closed" else none

/-- The example listing with a server that answers the second page with 429 forever. -/
def throttledPage2Env : Env where
  server := fun _ url => if url = libraryURL then .ok ⟨200, "page 1"⟩ else .ok ⟨429, ""⟩
  unmarshal := libraryUnmarshal
  sinkErr := fun _ _ => none

/-- An environment whose server answers every GET with 502 and an HTML body, which the
decoder rejects. -/
def badGatewayEnv : Env where
  server := fun _ _ => .ok ⟨502, "<html>502 Bad Gateway</html>"⟩
  unmarshal := fun _ => .error "invalid character looking for beginning of value"
  sinkErr := fun _ _ => none

/-- An environment whose first GET fails in the transport, without a response, and whose
later GETs are answered with 200. -/
def flakyEnv : Env where
  server := fun h _ => if h.length < 1 then .failed none "EOF" else .ok ⟨200, "\x7b\x7d"⟩
  unmarshal := fun body => if body = "\x7b\x7d" then .ok {} else .error "unexpected end of JSON input"
  sinkErr := fun _ _ => none

/-! # Theorems -/

/-! ## Traces -/

@[simp] theorem requests_nil : requests [] = [] := rfl
@[simp] theorem waits_nil : waits [] = [] := rfl
@[simp] theorem handed_nil : handed [] = [] := rfl

@[simp] theorem requests_append (a b : List Event) :
    requests (a ++ b) = requests a ++ requests b := by
  simp [requests, List.filterMap_append]

@[simp] theorem waits_append (a b : List Event) :
    waits (a ++ b) = waits a ++ waits b := by
  simp [waits, List.filterMap_append]

@[simp] theorem handed_append (a b : List Event) :
    handed (a ++ b) = handed a ++ handed b := by
  simp [handed, List.filterMap_append]

@[simp] theorem requests_cons (e : Event) (tr : List Event) :
    requests (e :: tr) = (match e with | .get url => [url] | _ => []) ++ requests tr := by
  cases e <;> simp [requests, List.filterMap_cons]

@[simp] theorem waits_cons (e : Event) (tr : List Event) :
    waits (e :: tr) = (match e with | .sleep s => [s] | _ => []) ++ waits tr := by
  cases e <;> simp [waits, List.filterMap_cons]

@[simp] theorem handed_cons (e : Event) (tr : List Event) :
    handed (e :: tr) = (match e with | .exec r => [r] | _ => []) ++ handed tr := by
  cases e <;> simp [handed, List.filterMap_cons]

@[simp] theorem emit_trace (w : World) (e : Event) : (w.emit e).trace = w.trace ++ [e] := rfl
@[simp] theorem emit_rows (w : World) (e : Event) : (w.emit e).rows = w.rows := rfl

/-! ## The retry loop -/

/-- While the server answers 429, each iteration issues one request to the same URL,
waits 10 seconds and counts one retry. -/
theorem retryLoop_tooManyRequests (env : Env) (url : String) (k left : Nat) :
    ∀ (retries : Nat) (resp : Option Response) (err : Option String) (w : World),
      (∀ i, i < k →
        (env.server (requests w.trace ++ List.replicate i url) url).tooManyRequests = true) →
      ∃ r e w2, retryLoop env url (k + left) retries resp err w
            = retryLoop env url left (retries + k) r e w2
          ∧ requests w2.trace = requests w.trace ++ List.replicate k url
          ∧ waits w2.trace = waits w.trace ++ List.replicate k 10
          ∧ handed w2.trace = handed w.trace
          ∧ w2.rows = w.rows := by
  induction k with
  | zero =>
    intro retries resp err w _
    exact ⟨resp, err, w, by simp, by simp, by simp, rfl, rfl⟩
  | succ k ih =>
    intro retries resp err w h
    have h0 : (env.server (requests w.trace) url).tooManyRequests = true := by
      simpa using h 0 (Nat.succ_pos k)
    obtain ⟨r, e, w2, hrun, hreq, hwait, hhand, hrows⟩ :=
      ih (retries + 1) (env.server (requests w.trace) url).resp
        (env.server (requests w.trace) url).err
        (((w.emit (.get url)).emit (.stdout ("Received 429 Too Many Requests, retrying after "
          ++ toString 10 ++ " seconds...\n"))).emit (.sleep 10))
        (by
          intro i hi
          have := h (i + 1) (Nat.succ_lt_succ hi)
          simpa [List.replicate_succ] using this)
    refine ⟨r, e, w2, ?_, ?_, ?_, ?_, ?_⟩
    · have hk : k + 1 + left = (k + left) + 1 := by omega
      rw [hk, retryLoop]
      simp only [h0, if_true]
      rw [hrun]
      congr 1
      omega
    · simpa [List.replicate_succ] using hreq
    · simpa [List.replicate_succ] using hwait
    · simpa using hhand
    · simpa using hrows

/-- C1 (retry ceiling): when the server answers the first 5 consecutive GETs of a URL with
HTTP 429, `makeRequestWithRetry` returns no response and the error
"max retries exceeded for URL: <url>", having issued exactly 5 requests, all to that URL. -/
theorem makeRequestWithRetry_ceiling (env : Env) (url : String) (w : World)
    (h429 : ∀ i, i < 5 →
      (env.server (requests w.trace ++ List.replicate i url) url).tooManyRequests = true) :
    (makeRequestWithRetry env url w).1
        = (none, some ("max retries exceeded for URL: " ++ url))
      ∧ requests (makeRequestWithRetry env url w).2.trace
        = requests w.trace ++ List.replicate 5 url := by
  obtain ⟨r, e, w2, hrun, hreq, -, -, -⟩ :=
    retryLoop_tooManyRequests env url 5 0 0 none none w h429
  have hrun2 : retryLoop env url 5 0 none none w = (5, r, e, w2) := by
    simpa [retryLoop] using hrun
  simp [makeRequestWithRetry, maxRetries, hrun2, hreq]

/-- Witness of C1: a server that answers 429 to its first five requests. -/
theorem makeRequestWithRetry_ceiling_witness :
    (makeRequestWithRetry (throttledEnv 5) "https://hub.docker.com/v2/repositories/library/"
        ⟨[], []⟩).1
        = (none, some ("max retries exceeded for URL: "
            ++ "https://hub.docker.com/v2/repositories/library/"))
      ∧ requests (makeRequestWithRetry (throttledEnv 5)
          "https://hub.docker.com/v2/repositories/library/" ⟨[], []⟩).2.trace
        = requests [] ++ List.replicate 5 "https://hub.docker.com/v2/repositories/library/" :=
  makeRequestWithRetry_ceiling (throttledEnv 5)
    "https://hub.docker.com/v2/repositories/library/" ⟨[], []⟩
    (by intro i hi; simp [throttledEnv, Reply.tooManyRequests, Reply.resp, hi])

/-- C2 (retry success): when the server answers the first `k ≤ 4` GETs of a URL with 429
and the next one with a response that is not 429 and carries no error,
`makeRequestWithRetry` returns that response with a nil error after exactly `k + 1`
requests to that URL and exactly `k` waits of 10 seconds. -/
theorem makeRequestWithRetry_success (env : Env) (url : String) (w : World) (k : Nat)
    (resp : Response) (hk : k ≤ 4)
    (h429 : ∀ i, i < k →
      (env.server (requests w.trace ++ List.replicate i url) url).tooManyRequests = true)
    (hok : env.server (requests w.trace ++ List.replicate k url) url = .ok resp)
    (hstatus : resp.statusCode ≠ 429) :
    (makeRequestWithRetry env url w).1 = (some resp, none)
      ∧ requests (makeRequestWithRetry env url w).2.trace
        = requests w.trace ++ List.replicate (k + 1) url
      ∧ waits (makeRequestWithRetry env url w).2.trace
        = waits w.trace ++ List.replicate k 10 := by
  obtain ⟨r, e, w2, hrun, hreq, hwait, -, -⟩ :=
    retryLoop_tooManyRequests env url k ((4 - k) + 1) 0 none none w h429
  have hfive : maxRetries = k + ((4 - k) + 1) := by simp [maxRetries]; omega
  have hlast : retryLoop env url ((4 - k) + 1) (0 + k) r e w2
      = (k, some resp, none, w2.emit (.get url)) := by
    rw [retryLoop]
    simp [hreq, hok, Reply.tooManyRequests, Reply.endsLoop, Reply.resp, Reply.err, hstatus]
  have hne : ¬ k = 5 := by omega
  rw [makeRequestWithRetry, hfive, hrun, hlast]
  simp [← hfive, maxRetries, hne, hreq, hwait, List.replicate_succ', List.append_assoc]

/-- Witness of C2 at `k = 4`: four 429 answers, then a 200. -/
theorem makeRequestWithRetry_success_witness :
    (makeRequestWithRetry (throttledEnv 4) "https://hub.docker.com/v2/repositories/library/"
        ⟨[], []⟩).1 = (some ⟨200, "\x7b\x7d"⟩, none)
      ∧ requests (makeRequestWithRetry (throttledEnv 4)
          "https://hub.docker.com/v2/repositories/library/" ⟨[], []⟩).2.trace
        = requests [] ++ List.replicate (4 + 1) "https://hub.docker.com/v2/repositories/library/"
      ∧ waits (makeRequestWithRetry (throttledEnv 4)
          "https://hub.docker.com/v2/repositories/library/" ⟨[], []⟩).2.trace
        = waits [] ++ List.replicate 4 10 :=
  makeRequestWithRetry_success (throttledEnv 4)
    "https://hub.docker.com/v2/repositories/library/" ⟨[], []⟩ 4 ⟨200, "\x7b\x7d"⟩
    (by decide)
    (by intro i hi; simp [throttledEnv, Reply.tooManyRequests, Reply.resp, hi])
    (by simp [throttledEnv])
    (by decide)

/-! ## convertStorageSize -/

/-- Rounding to nearest leaves at most half of the divisor as error. -/
theorem roundHalfEven_nearest (n d : Nat) (hd : 0 < d) :
    2 * Int.natAbs ((n : Int) - (roundHalfEven n d : Int) * (d : Int)) ≤ d := by
  unfold roundHalfEven
  simp only
  generalize hq : n / d = q
  generalize hrr : n % d = r
  have hn : n = d * q + r := by rw [← hq, ← hrr]; exact (Nat.div_add_mod n d).symm
  have hr : r < d := by rw [← hrr]; exact Nat.mod_lt n hd
  subst hn
  split_ifs with h
  · have e : ((d * q + r : Nat) : Int) - ((q + 1 : Nat) : Int) * (d : Int)
        = (r : Int) - (d : Int) := by push_cast; ring
    rw [e]; omega
  · have e : ((d * q + r : Nat) : Int) - (q : Int) * (d : Int) = (r : Int) := by
      push_cast; ring
    rw [e]; omega

/-- Below `2 ^ 53` the conversion to float64 is exact. -/
theorem float64OfNat_exact (n : Nat) (h : n < 2 ^ 53) : float64OfNat n = n := by
  have he : excessBits n n = 0 := by
    cases n with
    | zero => rfl
    | succ m =>
      show (if m + 1 < 2 ^ 53 then 0 else excessBits m ((m + 1) / 2) + 1) = 0
      rw [if_pos h]
  simp [float64OfNat, he, roundHalfEven, Nat.mod_one]

/-- The text printed for the float `v / den` is `v / den` written with 2 decimals. -/
theorem formatFixed2_written (v den : Nat) (unit : String) (hd : 0 < den) :
    WrittenWith2Decimals v den unit (formatFixed2 v den ++ unit) := by
  refine ⟨roundHalfEven (v * 100) den, ?_, rfl⟩
  have := roundHalfEven_nearest (v * 100) den hd
  unfold IsNearestHundredth
  have e : (100 : Int) * (v : Int) = ((v * 100 : Nat) : Int) := by push_cast; ring
  rw [e]; exact this

/-- The function formats `float64(s)` as the specification formats `s`. -/
theorem convertStorageSize_float (s : Int) :
    SizeFormat s (float64OfNat s.toNat) (convertStorageSize s) := by
  refine ⟨?_, ?_, ?_, ?_⟩
  · intro h1
    have : convertStorageSize s = formatFixed2 (float64OfNat s.toNat) (2 ^ 30) ++ " GB" := by
      unfold convertStorageSize; rw [if_pos h1]
    rw [this]; exact formatFixed2_written _ _ _ (by norm_num)
  · intro h1 h2
    have : convertStorageSize s = formatFixed2 (float64OfNat s.toNat) (2 ^ 20) ++ " MB" := by
      unfold convertStorageSize; rw [if_neg (not_le.mpr h1), if_pos h2]
    rw [this]; exact formatFixed2_written _ _ _ (by norm_num)
  · intro h1 h2
    have h0 : s < 2 ^ 30 := by omega
    have : convertStorageSize s = formatFixed2 (float64OfNat s.toNat) (2 ^ 10) ++ " KB" := by
      unfold convertStorageSize
      rw [if_neg (not_le.mpr h0), if_neg (not_le.mpr h1), if_pos h2]
    rw [this]; exact formatFixed2_written _ _ _ (by norm_num)
  · intro h1
    have h0 : s < 2 ^ 30 := by omega
    have h2 : s < 2 ^ 20 := by omega
    unfold convertStorageSize
    rw [if_neg (not_le.mpr h0), if_neg (not_le.mpr h2), if_neg (not_le.mpr h1)]

/-- C10 (size formatting), as amended: for every byte count `s` below `2 ^ 53`,
`convertStorageSize s` is `s / 2^30` written with exactly 2 decimal places followed by
" GB" when `s ≥ 2^30`, else `s / 2^20` and " MB" when `s ≥ 2^20`, else `s / 2^10` and
" KB" when `s ≥ 2^10`, else the decimal integer `s` followed by " Bytes"; for every `s`
the same holds of `float64(s)` in place of `s`; and 500, 2048, `5 * 2^20`, `3 * 2^30` give
"500 Bytes", "2.00 KB", "5.00 MB", "3.00 GB". -/
theorem convertStorageSize_format (s : Int) :
    (s < 2 ^ 53 → SizeFormat s s.toNat (convertStorageSize s))
      ∧ SizeFormat s (float64OfNat s.toNat) (convertStorageSize s)
      ∧ convertStorageSize 500 = "500 Bytes"
      ∧ convertStorageSize 2048 = "2.00 KB"
      ∧ convertStorageSize (5 * 2 ^ 20) = "5.00 MB"
      ∧ convertStorageSize (3 * 2 ^ 30) = "3.00 GB" := by
  refine ⟨?_, convertStorageSize_float s, by decide, by decide, by decide, by decide⟩
  intro h
  have hs : s.toNat < 2 ^ 53 := by omega
  have := convertStorageSize_float s
  rwa [float64OfNat_exact _ hs] at this

/-- Witness of C10 as amended, at 1536 bytes ("1.50 KB"). -/
theorem convertStorageSize_format_witness :
    SizeFormat 1536 (1536 : Int).toNat (convertStorageSize 1536) :=
  (convertStorageSize_format 1536).1 (by decide)

/-- Counterexample to C10 as stated: 9007199270847119 bytes are 8388608.01499999966...
GiB, which written with 2 decimal places is 8388608.01, but `float64` rounds the byte
count up to 9007199270847120 and the function prints "8388608.02 GB". -/
theorem convertStorageSize_format_counterexample :
    convertStorageSize 9007199270847119 = "8388608.02 GB"
      ∧ ¬ SizeFormat 9007199270847119 9007199270847119
          (convertStorageSize 9007199270847119) := by
  have hc : convertStorageSize 9007199270847119 = "8388608.02 GB" := by decide
  refine ⟨hc, ?_⟩
  rintro ⟨h1, -⟩
  obtain ⟨h, hnear, htext⟩ := h1 (by decide)
  have hh : h = 838860801 := by
    unfold IsNearestHundredth at hnear
    push_cast at hnear
    omega
  subst hh
  rw [hc] at htext
  revert htext
  decide

/-! ## The category derivation -/

/-- The display string and the four slots after the transform: a slot beyond the last
category keeps what the decoded record had in that field. -/
theorem transform_categories (imageType : String) (repo : DockerImage) :
    (transform imageType repo).Category = categoryDisplay (categoryNamesOf repo)
      ∧ (toRow (transform imageType repo)).category1
          = (categoryNamesOf repo).getD 0 repo.Category1
      ∧ (toRow (transform imageType repo)).category2
          = (categoryNamesOf repo).getD 1 repo.Category2
      ∧ (toRow (transform imageType repo)).category3
          = (categoryNamesOf repo).getD 2 repo.Category3
      ∧ (toRow (transform imageType repo)).category4
          = (categoryNamesOf repo).getD 3 repo.Category4 := by
  rcases h : repo.Categories with _ | ⟨a, _ | ⟨b, _ | ⟨c, _ | ⟨d, rest⟩⟩⟩⟩ <;>
    simp [transform, toRow, categoryDisplay, categoryNamesOf, h]

/-- C9 (category derivation), as amended: the display string is "Uncategorized" for a
record without categories and otherwise all names joined with ", " in order; the slot
`Category_i` handed to the sink (`i` in 1..4) is `c_i` when `i ≤ n` and otherwise keeps the
value the decoded record had in that field, so that for a record decoded with the four
fields unset the slots beyond `n` are unset.  Five categories fill the four slots with the
first four names and the display string has all five; two categories "a", "b" give "a, b",
slots "a", "b" and two unset slots. -/
theorem transform_category_derivation (imageType : String) (repo : DockerImage) :
    ((transform imageType repo).Category = categoryDisplay (categoryNamesOf repo)
      ∧ (toRow (transform imageType repo)).category1
          = (categoryNamesOf repo).getD 0 repo.Category1
      ∧ (toRow (transform imageType repo)).category2
          = (categoryNamesOf repo).getD 1 repo.Category2
      ∧ (toRow (transform imageType repo)).category3
          = (categoryNamesOf repo).getD 2 repo.Category3
      ∧ (toRow (transform imageType repo)).category4
          = (categoryNamesOf repo).getD 3 repo.Category4)
    ∧ (repo.Category1 = "" → repo.Category2 = "" → repo.Category3 = "" →
        repo.Category4 = "" → CategoryDerivation repo (transform imageType repo))
    ∧ (transform imageType fiveCategoriesImage).Category = "a, b, c, d, e"
    ∧ (toRow (transform imageType fiveCategoriesImage)).category4 = "d"
    ∧ (transform imageType { Categories := [⟨"a", "a"⟩, ⟨"b", "b"⟩] }).Category = "a, b"
    ∧ (toRow (transform imageType { Categories := [⟨"a", "a"⟩, ⟨"b", "b"⟩] })).category1 = "a"
    ∧ (toRow (transform imageType { Categories := [⟨"a", "a"⟩, ⟨"b", "b"⟩] })).category2 = "b"
    ∧ (toRow (transform imageType { Categories := [⟨"a", "a"⟩, ⟨"b", "b"⟩] })).category3 = ""
    ∧ (toRow (transform imageType { Categories := [⟨"a", "a"⟩, ⟨"b", "b"⟩] })).category4 = ""
    ∧ (transform imageType {}).Category = "Uncategorized" := by
  have h := transform_categories imageType repo
  refine ⟨h, ?_, ?_, ?_, ?_, ?_, ?_, ?_, ?_, ?_⟩
  · intro h1 h2 h3 h4
    obtain ⟨hd, s1, s2, s3, s4⟩ := h
    rw [h1] at s1; rw [h2] at s2; rw [h3] at s3; rw [h4] at s4
    exact ⟨hd, s1, s2, s3, s4⟩
  all_goals simp [transform, toRow, fiveCategoriesImage]
  all_goals decide

/-- Witness of C9 as amended: a record with five categories and no slot set. -/
theorem transform_category_derivation_witness :
    CategoryDerivation fiveCategoriesImage (transform "Sponsored OSS" fiveCategoriesImage) :=
  (transform_category_derivation "Sponsored OSS" fiveCategoriesImage).2.1 rfl rfl rfl rfl

/-- Counterexample to C9 as stated: a record without categories that was decoded with
`Category3` set is handed to the sink with "x" in slot 3, not with the slot unset. -/
theorem transform_category_derivation_counterexample :
    categoryNamesOf presetSlotImage = []
      ∧ (toRow (transform "Docker Official Image" presetSlotImage)).category3 = "x"
      ∧ ¬ CategoryDerivation presetSlotImage
          (transform "Docker Official Image" presetSlotImage) := by
  decide

/-! ## Replies that are not 429 -/

/-- C7, the code at the failing input: every GET of the library URL fails with
"connection refused" (no HTTP response, status 0).  The function does not stop at the
first failure: it issues 5 requests without any wait and returns the max-retries error
instead of the transport error.  When only the first GET fails, the second request is
issued and its response returned with a nil error. -/
theorem makeRequestWithRetry_transport_error_retried :
    (refusingEnv.server [] libraryURL).tooManyRequests = false
      ∧ (refusingEnv.server [] libraryURL).err
          = some "dial tcp: connect: connection refused"
      ∧ (makeRequestWithRetry refusingEnv libraryURL emptyWorld).1
          = (none, some ("max retries exceeded for URL: " ++ libraryURL))
      ∧ requests (makeRequestWithRetry refusingEnv libraryURL emptyWorld).2.trace
          = List.replicate 5 libraryURL
      ∧ waits (makeRequestWithRetry refusingEnv libraryURL emptyWorld).2.trace = []
      ∧ flakyEnv.server [] libraryURL = .failed none "EOF"
      ∧ (makeRequestWithRetry flakyEnv libraryURL emptyWorld).1
          = (some ⟨200, "\x7b\x7d"⟩, none)
      ∧ requests (makeRequestWithRetry flakyEnv libraryURL emptyWorld).2.trace
          = [libraryURL, libraryURL] := by
  decide

/-- Counterexample to C8 as stated: the library URL is answered with 404 and the JSON
body of Docker Hub's "object not found"; `fetchAndInsertImages` takes it for a page
without results and without next-cursor and returns nil after that one request. -/
theorem fetchAndInsertImages_not_found_counterexample :
    notFoundEnv.server [] libraryURL = .ok ⟨404, notFoundBody⟩
      ∧ fetchAndInsertImages notFoundEnv "Docker Official Image" 1 libraryURL emptyWorld
          = some (.ok, ⟨[.get libraryURL], []⟩) := by
  decide

/-! ## What one fetch and one page do to the world -/

/-- The retry loop only requests its own URL, at most once per iteration left, hands
nothing to the sink and leaves the table alone. -/
theorem retryLoop_world (env : Env) (url : String) (left : Nat) :
    ∀ (retries : Nat) (resp : Option Response) (err : Option String) (w : World),
      (∃ m, m ≤ left ∧ requests (retryLoop env url left retries resp err w).2.2.2.trace
          = requests w.trace ++ List.replicate m url)
        ∧ handed (retryLoop env url left retries resp err w).2.2.2.trace = handed w.trace
        ∧ (retryLoop env url left retries resp err w).2.2.2.rows = w.rows := by
  induction left with
  | zero =>
    intro retries resp err w
    exact ⟨⟨0, Nat.le_refl 0, by simp [retryLoop]⟩, rfl, rfl⟩
  | succ left ih =>
    intro retries resp err w
    rw [retryLoop]
    simp only
    split_ifs with h1 h2
    · obtain ⟨⟨m, hm, hreq⟩, hhand, hrows⟩ :=
        ih (retries + 1) (env.server (requests w.trace) url).resp
          (env.server (requests w.trace) url).err
          (((w.emit (.get url)).emit (.stdout ("Received 429 Too Many Requests, retrying after "
            ++ toString 10 ++ " seconds...\n"))).emit (.sleep 10))
      refine ⟨⟨m + 1, by omega, ?_⟩, ?_, ?_⟩
      · rw [hreq]; simp [List.replicate_succ]
      · rw [hhand]; simp
      · rw [hrows]; simp
    · exact ⟨⟨1, by omega, by simp⟩, by simp, by simp⟩
    · obtain ⟨⟨m, hm, hreq⟩, hhand, hrows⟩ :=
        ih (retries + 1) (env.server (requests w.trace) url).resp
          (env.server (requests w.trace) url).err (w.emit (.get url))
      refine ⟨⟨m + 1, by omega, ?_⟩, ?_, ?_⟩
      · rw [hreq]; simp [List.replicate_succ]
      · rw [hhand]; simp
      · rw [hrows]; simp

/-- The world after `makeRequestWithRetry` is the world after its loop. -/
theorem makeRequestWithRetry_snd (env : Env) (url : String) (w : World) :
    (makeRequestWithRetry env url w).2
      = (retryLoop env url maxRetries 0 none none w).2.2.2 := by
  unfold makeRequestWithRetry
  split
  rename_i retries resp err w2 heq
  rw [heq]
  split_ifs <;> rfl

/-- The function `makeRequestWithRetry` requests only its own URL, at most 5 times, hands
nothing to the sink and leaves the table alone. -/
theorem makeRequestWithRetry_world (env : Env) (url : String) (w : World) :
    (∃ m, m ≤ 5 ∧ requests (makeRequestWithRetry env url w).2.trace
        = requests w.trace ++ List.replicate m url)
      ∧ handed (makeRequestWithRetry env url w).2.trace = handed w.trace
      ∧ (makeRequestWithRetry env url w).2.rows = w.rows := by
  rw [makeRequestWithRetry_snd]
  exact retryLoop_world env url 5 0 none none w

/-- A reply without error that is not a 429 ends the fetch after one request. -/
theorem makeRequestWithRetry_ok (env : Env) (url : String) (w : World) (resp : Response)
    (hok : env.server (requests w.trace) url = .ok resp) (hstatus : resp.statusCode ≠ 429) :
    makeRequestWithRetry env url w = ((some resp, none), w.emit (.get url)) := by
  have hloop : retryLoop env url 5 0 none none w = (0, some resp, none, w.emit (.get url)) := by
    rw [retryLoop]
    simp [hok, Reply.tooManyRequests, Reply.endsLoop, Reply.resp, Reply.err, hstatus]
  simp [makeRequestWithRetry, maxRetries, hloop]

/-- A served page is fetched with one request. -/
theorem makeRequestWithRetry_served (env : Env) (url : String) (w : World)
    (p : DockerHubRepoResponse) (h : servesPage env (requests w.trace) url p = true) :
    ∃ resp, makeRequestWithRetry env url w = ((some resp, none), w.emit (.get url))
      ∧ env.unmarshal resp.body = .ok p := by
  unfold servesPage at h
  split at h
  · rename_i resp hok
    simp only [Bool.and_eq_true, bne_iff_ne, ne_eq] at h
    obtain ⟨hstatus, hdec⟩ := h
    refine ⟨resp, makeRequestWithRetry_ok env url w resp hok hstatus, ?_⟩
    split at hdec
    · rename_i q hq
      have : q = p := by simpa using hdec
      rw [hq, this]
    · exact absurd hdec (by simp)
  · exact absurd h (by simp)

/-- The call of `conn.Exec` adds one event and changes nothing else of the trace. -/
theorem exec_trace (env : Env) (row : Row) (w : World) :
    (exec env row w).2.trace = w.trace ++ [.exec row] := by
  unfold exec
  simp only
  split
  · rfl
  · split_ifs <;> rfl

/-- The loop over the records of a page issues no request, waits for nothing, and hands
each record, transformed, to the sink once, in order, whatever the sink answers. -/
theorem insertLoop_trace (env : Env) (imageType : String) (rs : List DockerImage) :
    ∀ w : World,
      requests (insertLoop env imageType rs w).trace = requests w.trace
        ∧ handed (insertLoop env imageType rs w).trace
          = handed w.trace ++ rs.map fun repo => toRow (transform imageType repo) := by
  induction rs with
  | nil => intro w; simp [insertLoop]
  | cons repo rest ih =>
    intro w
    rw [insertLoop]
    have ht := exec_trace env (toRow (transform imageType repo))
      (w.emit (.stdout ((transform imageType repo).StorageSize ++ "\n")))
    unfold insertRepoToDB
    split
    · rename_i err w2 heq
      have hw2 : w2.trace
          = (w.emit (.stdout ((transform imageType repo).StorageSize ++ "\n"))).trace
            ++ [.exec (toRow (transform imageType repo))] := by rw [← ht, heq]
      obtain ⟨h1, h2⟩ := ih (w2.emit (.log ("Error inserting repository data: " ++ err)))
      rw [h1, h2]
      simp [hw2]
    · rename_i w2 heq
      have hw2 : w2.trace
          = (w.emit (.stdout ((transform imageType repo).StorageSize ++ "\n"))).trace
            ++ [.exec (toRow (transform imageType repo))] := by rw [← ht, heq]
      obtain ⟨h1, h2⟩ := ih (w2.emit (.stdout ("Inserted repository: "
        ++ (transform imageType repo).Namespace ++ "/" ++ (transform imageType repo).Name ++ "\n")))
      rw [h1, h2]
      simp [hw2]

/-! ## Following a chain of pages -/

/-- With an empty cursor the function returns nil at once. -/
theorem fetchAndInsertImages_done (env : Env) (imageType : String) (fuel : Nat) (w : World) :
    fetchAndInsertImages env imageType fuel "" w = some (.ok, w) := by
  cases fuel <;> simp [fetchAndInsertImages]

/-- One iteration on a served page: one request, the records of the page handed to the
sink, and the loop goes on with the next-cursor of the page. -/
theorem fetchAndInsertImages_step (env : Env) (imageType : String) (fuel : Nat)
    (url : String) (w : World) (p : DockerHubRepoResponse) (hurl : url ≠ "")
    (h : servesPage env (requests w.trace) url p = true) :
    fetchAndInsertImages env imageType (fuel + 1) url w
        = fetchAndInsertImages env imageType fuel p.Next
            (insertLoop env imageType p.Results (makeRequestWithRetry env url w).2) := by
  obtain ⟨resp, hreq, hdec⟩ := makeRequestWithRetry_served env url w p h
  rw [fetchAndInsertImages, if_neg hurl, hreq]
  simp only [hdec]

/-- The requests and the rows handed to the sink while a served chain is followed. -/
theorem afterPages_trace (env : Env) (imageType : String) (ps : List DockerHubRepoResponse) :
    ∀ (url : String) (w : World), ServesChain env (requests w.trace) url ps →
      requests (afterPages env imageType url ps w).trace
          = requests w.trace ++ chainURLs url ps
        ∧ handed (afterPages env imageType url ps w).trace
          = handed w.trace ++ chainRows imageType ps := by
  induction ps with
  | nil => intro url w _; simp [afterPages, chainURLs, chainRows]
  | cons p ps ih =>
    intro url w h
    obtain ⟨-, hserved, hrest⟩ := h
    obtain ⟨resp, hreq, -⟩ := makeRequestWithRetry_served env url w p hserved
    obtain ⟨h1, h2⟩ := insertLoop_trace env imageType p.Results (w.emit (.get url))
    have hrest2 : ServesChain env
        (requests (insertLoop env imageType p.Results (w.emit (.get url))).trace) p.Next ps := by
      rw [h1]; simpa using hrest
    obtain ⟨i1, i2⟩ := ih p.Next _ hrest2
    rw [afterPages, hreq]
    simp only
    rw [i1, i2, h1, h2]
    simp [chainURLs, chainRows, pageRows]

/-- Following a served chain takes one iteration per page. -/
theorem fetchAndInsertImages_chain (env : Env) (imageType : String)
    (ps : List DockerHubRepoResponse) :
    ∀ (fuel : Nat) (url : String) (w : World), ServesChain env (requests w.trace) url ps →
      fetchAndInsertImages env imageType (fuel + ps.length) url w
        = fetchAndInsertImages env imageType fuel (lastCursor url ps)
            (afterPages env imageType url ps w) := by
  induction ps with
  | nil => intro fuel url w _; simp [lastCursor, afterPages]
  | cons p ps ih =>
    intro fuel url w h
    obtain ⟨hurl, hserved, hrest⟩ := h
    obtain ⟨resp, hreq, -⟩ := makeRequestWithRetry_served env url w p hserved
    obtain ⟨h1, -⟩ := insertLoop_trace env imageType p.Results (w.emit (.get url))
    have hrest2 : ServesChain env
        (requests (insertLoop env imageType p.Results (w.emit (.get url))).trace) p.Next ps := by
      rw [h1]; simpa using hrest
    have hlen : fuel + (p :: ps).length = (fuel + ps.length) + 1 := by simp; omega
    rw [hlen, fetchAndInsertImages_step env imageType _ url w p hurl hserved, hreq]
    simp only
    rw [ih fuel p.Next _ hrest2, lastCursor, afterPages, hreq]

/-- A served chain whose last next-cursor is empty is followed to its end, and the
function returns nil, with any bound of at least the number of pages. -/
theorem fetchAndInsertImages_complete (env : Env) (imageType : String)
    (ps : List DockerHubRepoResponse) (fuel : Nat) (url : String) (w : World)
    (hchain : ServesChain env (requests w.trace) url ps) (hlast : lastCursor url ps = "")
    (hfuel : ps.length ≤ fuel) :
    fetchAndInsertImages env imageType fuel url w
      = some (.ok, afterPages env imageType url ps w) := by
  obtain ⟨f, rfl⟩ : ∃ f, fuel = f + ps.length := ⟨fuel - ps.length, by omega⟩
  rw [fetchAndInsertImages_chain env imageType ps f url w hchain, hlast,
    fetchAndInsertImages_done]

/-! ## The table -/

/-- A row collides with itself. -/
theorem sameKey_self (r : Row) : sameKey r r = true := by
  simp [sameKey]

/-- Rows added to the table keep the keys that are there. -/
theorem Covered.append {rows rs : List Row} (h : Covered rows rs) (extra : List Row) :
    Covered (rows ++ extra) rs := by
  intro r hr
  rw [List.any_append, h r hr]
  rfl

/-- The call of `conn.Exec` for a row whose key is in the table leaves the table as it
is, whether the datastore fails or not. -/
theorem exec_rows_present (env : Env) (row : Row) (w : World)
    (h : w.rows.any (sameKey row) = true) : (exec env row w).2.rows = w.rows := by
  unfold exec
  simp only
  split
  · rfl
  · rw [if_pos h]; rfl

/-- The call of `conn.Exec` can only add rows at the end of the table. -/
theorem exec_rows_grow (env : Env) (row : Row) (w : World) :
    ∃ extra, (exec env row w).2.rows = w.rows ++ extra := by
  unfold exec
  simp only
  split
  · exact ⟨[], by simp⟩
  · split_ifs
    · exact ⟨[], by simp⟩
    · exact ⟨[row], rfl⟩

/-- When the datastore does not fail, the key of the row is in the table afterwards. -/
theorem exec_rows_covers (env : Env) (row : Row) (w : World)
    (h : env.sinkErr (handed w.trace) row = none) :
    (exec env row w).2.rows.any (sameKey row) = true := by
  unfold exec
  simp only
  rw [h]
  simp only
  split_ifs with hp
  · exact hp
  · show (w.rows ++ [row]).any (sameKey row) = true
    rw [List.any_append]
    simp [sameKey_self]

/-- The loop over the records of a page leaves the table as it is when the key of every
record is there. -/
theorem insertLoop_rows_present (env : Env) (imageType : String) (rs : List DockerImage) :
    ∀ w : World, Covered w.rows (rs.map fun repo => toRow (transform imageType repo)) →
      (insertLoop env imageType rs w).rows = w.rows := by
  induction rs with
  | nil => intro w _; rfl
  | cons repo rest ih =>
    intro w h
    have hpres : (w.emit (.stdout ((transform imageType repo).StorageSize ++ "\n"))).rows.any
        (sameKey (toRow (transform imageType repo))) = true :=
      h _ (by simp)
    have hx := exec_rows_present env (toRow (transform imageType repo)) _ hpres
    have hrest : Covered w.rows (rest.map fun repo => toRow (transform imageType repo)) :=
      fun r hr => h r (by simp only [List.map_cons, List.mem_cons]; exact Or.inr hr)
    rw [insertLoop]
    unfold insertRepoToDB
    split
    · rename_i err w2 heq
      have hw2 : w2.rows = w.rows := by rw [heq] at hx; exact hx
      rw [ih _ (by simpa [hw2] using hrest)]
      simpa using hw2
    · rename_i w2 heq
      have hw2 : w2.rows = w.rows := by rw [heq] at hx; exact hx
      rw [ih _ (by simpa [hw2] using hrest)]
      simpa using hw2

/-- The loop over the records of a page can only add rows at the end of the table, and
when the datastore never fails the key of every record is in the table afterwards. -/
theorem insertLoop_rows (env : Env) (imageType : String) (rs : List DockerImage) :
    ∀ w : World,
      (∃ extra, (insertLoop env imageType rs w).rows = w.rows ++ extra)
        ∧ ((∀ h r, env.sinkErr h r = none) →
            Covered (insertLoop env imageType rs w).rows
              (rs.map fun repo => toRow (transform imageType repo))) := by
  induction rs with
  | nil =>
    intro w
    exact ⟨⟨[], by simp [insertLoop]⟩, fun _ r hr => absurd hr (by simp)⟩
  | cons repo rest ih =>
    intro w
    obtain ⟨ex, hex⟩ := exec_rows_grow env (toRow (transform imageType repo))
      (w.emit (.stdout ((transform imageType repo).StorageSize ++ "\n")))
    have hcov := exec_rows_covers env (toRow (transform imageType repo))
      (w.emit (.stdout ((transform imageType repo).StorageSize ++ "\n")))
    rw [insertLoop]
    unfold insertRepoToDB
    split
    · rename_i err w2 heq
      rw [heq] at hex hcov
      obtain ⟨⟨ex2, hex2⟩, hc2⟩ := ih (w2.emit (.log ("Error inserting repository data: " ++ err)))
      refine ⟨⟨ex ++ ex2, ?_⟩, ?_⟩
      · rw [hex2]; simp only [emit_rows] at hex ⊢; rw [hex]; simp
      · intro hs r hr
        simp only [List.map_cons, List.mem_cons] at hr
        rcases hr with rfl | hr
        · rw [hex2, List.any_append]
          simp only [emit_rows]
          rw [hcov (hs _ _)]; rfl
        · exact hc2 hs r hr
    · rename_i w2 heq
      rw [heq] at hex hcov
      obtain ⟨⟨ex2, hex2⟩, hc2⟩ := ih (w2.emit (.stdout ("Inserted repository: "
        ++ (transform imageType repo).Namespace ++ "/" ++ (transform imageType repo).Name ++ "\n")))
      refine ⟨⟨ex ++ ex2, ?_⟩, ?_⟩
      · rw [hex2]; simp only [emit_rows] at hex ⊢; rw [hex]; simp
      · intro hs r hr
        simp only [List.map_cons, List.mem_cons] at hr
        rcases hr with rfl | hr
        · rw [hex2, List.any_append]
          simp only [emit_rows]
          rw [hcov (hs _ _)]; rfl
        · exact hc2 hs r hr

/-- Following a chain leaves the table as it is when the key of every record of every
page is there. -/
theorem afterPages_rows_present (env : Env) (imageType : String)
    (ps : List DockerHubRepoResponse) :
    ∀ (url : String) (w : World), Covered w.rows (chainRows imageType ps) →
      (afterPages env imageType url ps w).rows = w.rows := by
  induction ps with
  | nil => intro url w _; rfl
  | cons p ps ih =>
    intro url w h
    have hreq := (makeRequestWithRetry_world env url w).2.2
    have hpage : Covered (makeRequestWithRetry env url w).2.rows
        (p.Results.map fun repo => toRow (transform imageType repo)) := by
      rw [hreq]
      exact fun r hr => h r (by simp only [chainRows, pageRows, List.mem_append]; exact Or.inl hr)
    have hloop := insertLoop_rows_present env imageType p.Results _ hpage
    have hrest : Covered
        (insertLoop env imageType p.Results (makeRequestWithRetry env url w).2).rows
        (chainRows imageType ps) := by
      rw [hloop, hreq]
      exact fun r hr => h r (by simp only [chainRows, List.mem_append]; exact Or.inr hr)
    rw [afterPages, ih p.Next _ hrest, hloop, hreq]

/-- Following a chain can only add rows at the end of the table, and when the datastore
never fails the key of every record of every page is in the table afterwards. -/
theorem afterPages_rows (env : Env) (imageType : String) (ps : List DockerHubRepoResponse) :
    ∀ (url : String) (w : World),
      (∃ extra, (afterPages env imageType url ps w).rows = w.rows ++ extra)
        ∧ ((∀ h r, env.sinkErr h r = none) →
            Covered (afterPages env imageType url ps w).rows (chainRows imageType ps)) := by
  induction ps with
  | nil =>
    intro url w
    exact ⟨⟨[], by simp [afterPages]⟩, fun _ r hr => absurd hr (by simp [chainRows])⟩
  | cons p ps ih =>
    intro url w
    have hreq := (makeRequestWithRetry_world env url w).2.2
    obtain ⟨⟨ex1, hex1⟩, hc1⟩ :=
      insertLoop_rows env imageType p.Results (makeRequestWithRetry env url w).2
    obtain ⟨⟨ex2, hex2⟩, hc2⟩ := ih p.Next
      (insertLoop env imageType p.Results (makeRequestWithRetry env url w).2)
    rw [afterPages]
    refine ⟨⟨ex1 ++ ex2, ?_⟩, ?_⟩
    · rw [hex2, hex1, hreq]; simp
    · intro hs r hr
      simp only [chainRows, List.mem_append] at hr
      rcases hr with hr | hr
      · rw [hex2]
        exact (hc1 hs).append ex2 r hr
      · exact hc2 hs r hr

/-! ## The claims about fetchAndInsertImages -/

/-- C3 (pagination termination): when the server serves a finite chain of pages from the
start URL on (each URL answered without error by a decodable response, each next-cursor
the URL of the following page) and the last next-cursor is empty, `fetchAndInsertImages`
returns nil, for every bound of at least the number of pages, and the requests it has
issued are exactly the URLs of the chain, once each and in chain order. -/
theorem fetchAndInsertImages_pagination (env : Env) (imageType : String)
    (ps : List DockerHubRepoResponse) (fuel : Nat) (url : String) (w : World)
    (hchain : ServesChain env (requests w.trace) url ps) (hlast : lastCursor url ps = "")
    (hfuel : ps.length ≤ fuel) :
    ∃ w2, fetchAndInsertImages env imageType fuel url w = some (.ok, w2)
      ∧ requests w2.trace = requests w.trace ++ chainURLs url ps
      ∧ (chainURLs url ps).length = ps.length := by
  refine ⟨afterPages env imageType url ps w,
    fetchAndInsertImages_complete env imageType ps fuel url w hchain hlast hfuel,
    (afterPages_trace env imageType ps url w hchain).1, ?_⟩
  clear hchain hlast hfuel
  induction ps generalizing url with
  | nil => rfl
  | cons p ps ih => simp [chainURLs, ih]

/-- Witness of C3: the two-page library listing. -/
theorem fetchAndInsertImages_pagination_witness :
    ∃ w2, fetchAndInsertImages libraryEnv "Docker Official Image" 2 libraryURL emptyWorld
        = some (.ok, w2)
      ∧ requests w2.trace
        = requests emptyWorld.trace ++ chainURLs libraryURL [libraryPage1, libraryPage2]
      ∧ (chainURLs libraryURL [libraryPage1, libraryPage2]).length
        = [libraryPage1, libraryPage2].length :=
  fetchAndInsertImages_pagination libraryEnv "Docker Official Image"
    [libraryPage1, libraryPage2] 2 libraryURL emptyWorld
    ⟨by decide, by decide, by decide, by decide, trivial⟩ (by decide) (by decide)

/-- C6 (write failures are contained): when the server serves a finite chain of pages
whose last next-cursor is empty, then whatever the datastore answers to each write,
`fetchAndInsertImages` hands every record of every page to the sink exactly once, in page
order and record order, follows the same next-cursors, and returns nil. -/
theorem fetchAndInsertImages_write_failures_contained (server : List String → String → Reply)
    (unmarshal : String → Except String DockerHubRepoResponse)
    (sinkErr : List Row → Row → Option String) (imageType : String)
    (ps : List DockerHubRepoResponse) (fuel : Nat) (url : String) (w : World)
    (hchain : ServesChain ⟨server, unmarshal, sinkErr⟩ (requests w.trace) url ps)
    (hlast : lastCursor url ps = "") (hfuel : ps.length ≤ fuel) :
    ∃ w2, fetchAndInsertImages ⟨server, unmarshal, sinkErr⟩ imageType fuel url w
        = some (.ok, w2)
      ∧ handed w2.trace = handed w.trace ++ chainRows imageType ps
      ∧ requests w2.trace = requests w.trace ++ chainURLs url ps :=
  ⟨afterPages ⟨server, unmarshal, sinkErr⟩ imageType url ps w,
    fetchAndInsertImages_complete _ imageType ps fuel url w hchain hlast hfuel,
    (afterPages_trace _ imageType ps url w hchain).2,
    (afterPages_trace _ imageType ps url w hchain).1⟩

/-- Witness of C6: the library listing with a datastore that refuses "nginx". -/
theorem fetchAndInsertImages_write_failures_contained_witness :
    ∃ w2, fetchAndInsertImages
          ⟨libraryServer, libraryUnmarshal, failingSinkEnv.sinkErr⟩
          "Docker Official Image" 2 libraryURL emptyWorld = some (.ok, w2)
      ∧ handed w2.trace = handed emptyWorld.trace
          ++ chainRows "Docker Official Image" [libraryPage1, libraryPage2]
      ∧ requests w2.trace
        = requests emptyWorld.trace ++ chainURLs libraryURL [libraryPage1, libraryPage2] :=
  fetchAndInsertImages_write_failures_contained libraryServer libraryUnmarshal
    failingSinkEnv.sinkErr "Docker Official Image"
    [libraryPage1, libraryPage2] 2 libraryURL emptyWorld
    ⟨by decide, by decide, by decide, by decide, trivial⟩ (by decide) (by decide)

/-- C4 (idempotence): with a datastore that never fails (a write either adds the row or,
on a key that is there, does nothing and reports success), for every initial table and
every finite chain of pages served in both runs, running `fetchAndInsertImages` a second
time leaves the table with exactly the rows the first run left: the second run adds no
row. -/
theorem fetchAndInsertImages_idempotent (env : Env) (imageType : String)
    (ps : List DockerHubRepoResponse) (fuel1 fuel2 : Nat) (url : String) (w : World)
    (hsink : ∀ h r, env.sinkErr h r = none)
    (hchain1 : ServesChain env (requests w.trace) url ps)
    (hchain2 : ServesChain env (requests w.trace ++ chainURLs url ps) url ps)
    (hlast : lastCursor url ps = "")
    (hfuel1 : ps.length ≤ fuel1) (hfuel2 : ps.length ≤ fuel2) :
    ∃ w1 w2, fetchAndInsertImages env imageType fuel1 url w = some (.ok, w1)
      ∧ fetchAndInsertImages env imageType fuel2 url w1 = some (.ok, w2)
      ∧ w2.rows = w1.rows
      ∧ Covered w1.rows (chainRows imageType ps) := by
  have hreq := (afterPages_trace env imageType ps url w hchain1).1
  have hcov := (afterPages_rows env imageType ps url w).2 hsink
  refine ⟨afterPages env imageType url ps w,
    afterPages env imageType url ps (afterPages env imageType url ps w),
    fetchAndInsertImages_complete env imageType ps fuel1 url w hchain1 hlast hfuel1,
    fetchAndInsertImages_complete env imageType ps fuel2 url _ (by rw [hreq]; exact hchain2)
      hlast hfuel2,
    afterPages_rows_present env imageType ps url _ hcov, hcov⟩

/-- Witness of C4: the library listing run twice from a table that has "redis" already. -/
theorem fetchAndInsertImages_idempotent_witness :
    ∃ w1 w2, fetchAndInsertImages libraryEnv "Docker Official Image" 2 libraryURL
          ⟨[], [toRow (transform "Sponsored OSS" { Name := "redis", Namespace := "library" })]⟩
        = some (.ok, w1)
      ∧ fetchAndInsertImages libraryEnv "Docker Official Image" 3 libraryURL w1
        = some (.ok, w2)
      ∧ w2.rows = w1.rows
      ∧ Covered w1.rows (chainRows "Docker Official Image" [libraryPage1, libraryPage2]) :=
  fetchAndInsertImages_idempotent libraryEnv "Docker Official Image"
    [libraryPage1, libraryPage2] 2 3 libraryURL
    ⟨[], [toRow (transform "Sponsored OSS" { Name := "redis", Namespace := "library" })]⟩
    (fun _ _ => rfl)
    ⟨by decide, by decide, by decide, by decide, trivial⟩
    ⟨by decide, by decide, by decide, by decide, trivial⟩ (by decide) (by decide) (by decide)

/-- C5 (a fetch failure aborts the Source): when the pages before page `k` are served and
the fetch of page `k` fails (`makeRequestWithRetry` returns an error, or the body it
returns does not decode), `fetchAndInsertImages` returns an error in the world that failed
fetch leaves: the records of the pages before `k` have been handed to the sink and nothing
else, and after the requests of those pages every request is for the URL of page `k`. -/
theorem fetchAndInsertImages_fetch_failure_aborts (env : Env) (imageType : String)
    (ps : List DockerHubRepoResponse) (fuel : Nat) (url : String) (w : World)
    (hchain : ServesChain env (requests w.trace) url ps)
    (hurl : lastCursor url ps ≠ "")
    (hfail : fetchFails env (lastCursor url ps) (afterPages env imageType url ps w) = true)
    (hfuel : ps.length < fuel) :
    ∃ msg, fetchAndInsertImages env imageType fuel url w
        = some (.error msg,
            (makeRequestWithRetry env (lastCursor url ps)
              (afterPages env imageType url ps w)).2)
      ∧ handed (makeRequestWithRetry env (lastCursor url ps)
          (afterPages env imageType url ps w)).2.trace
        = handed w.trace ++ chainRows imageType ps
      ∧ ∃ m, m ≤ 5 ∧ requests (makeRequestWithRetry env (lastCursor url ps)
          (afterPages env imageType url ps w)).2.trace
        = requests w.trace ++ chainURLs url ps ++ List.replicate m (lastCursor url ps) := by
  obtain ⟨f, rfl⟩ : ∃ f, fuel = (f + 1) + ps.length := ⟨fuel - ps.length - 1, by omega⟩
  obtain ⟨hreq, hhand⟩ := afterPages_trace env imageType ps url w hchain
  obtain ⟨⟨m, hm, hmreq⟩, hmhand, -⟩ :=
    makeRequestWithRetry_world env (lastCursor url ps) (afterPages env imageType url ps w)
  rw [fetchAndInsertImages_chain env imageType ps (f + 1) url w hchain, fetchAndInsertImages,
    if_neg hurl]
  unfold fetchFails at hfail
  rw [hmhand, hhand, hmreq, hreq]
  rcases hmr : makeRequestWithRetry env (lastCursor url ps)
    (afterPages env imageType url ps w) with ⟨⟨resp, err⟩, w3⟩
  rw [hmr] at hfail
  cases err with
  | some e => cases resp <;> exact ⟨e, rfl, rfl, m, hm, rfl⟩
  | none =>
    cases resp with
    | none => simp at hfail
    | some r =>
      cases hdec : env.unmarshal r.body with
      | error e =>
        refine ⟨"Error parsing repositories JSON: " ++ e, ?_, rfl, m, hm, rfl⟩
        simp only [hdec]
      | ok p => simp [hdec] at hfail

/-- Witness of C5: the first page of the library listing is served, the second is
answered with 429 until the retries are exhausted. -/
theorem fetchAndInsertImages_fetch_failure_aborts_witness :
    ∃ msg, fetchAndInsertImages throttledPage2Env "Docker Official Image" 2 libraryURL
          emptyWorld
        = some (.error msg,
            (makeRequestWithRetry throttledPage2Env (lastCursor libraryURL [libraryPage1])
              (afterPages throttledPage2Env "Docker Official Image" libraryURL [libraryPage1]
                emptyWorld)).2)
      ∧ handed (makeRequestWithRetry throttledPage2Env (lastCursor libraryURL [libraryPage1])
          (afterPages throttledPage2Env "Docker Official Image" libraryURL [libraryPage1]
            emptyWorld)).2.trace
        = handed emptyWorld.trace ++ chainRows "Docker Official Image" [libraryPage1]
      ∧ ∃ m, m ≤ 5 ∧ requests (makeRequestWithRetry throttledPage2Env
          (lastCursor libraryURL [libraryPage1])
          (afterPages throttledPage2Env "Docker Official Image" libraryURL [libraryPage1]
            emptyWorld)).2.trace
        = requests emptyWorld.trace ++ chainURLs libraryURL [libraryPage1]
          ++ List.replicate m (lastCursor libraryURL [libraryPage1]) :=
  fetchAndInsertImages_fetch_failure_aborts throttledPage2Env "Docker Official Image"
    [libraryPage1] 2 libraryURL emptyWorld
    ⟨by decide, by decide, trivial⟩ (by decide) (by decide) (by decide)

/-- C8 (replies with a status other than 429), as amended: when a page URL is answered
without transport error by a response whose status is not 429 (404 and 500 included), the
status is not looked at: `fetchAndInsertImages` returns the parse error, after that one
request, when the body does not decode, and otherwise goes on as for any page, with the
records the body decodes to and its next-cursor, so that a body that decodes to no record
and no next-cursor makes it return nil. -/
theorem fetchAndInsertImages_status_not_examined (env : Env) (imageType : String)
    (fuel : Nat) (url : String) (w : World) (resp : Response) (hurl : url ≠ "")
    (hok : env.server (requests w.trace) url = .ok resp) (hstatus : resp.statusCode ≠ 429) :
    (∀ e, env.unmarshal resp.body = .error e →
        fetchAndInsertImages env imageType (fuel + 1) url w
          = some (.error ("Error parsing repositories JSON: " ++ e), w.emit (.get url)))
      ∧ (∀ p, env.unmarshal resp.body = .ok p →
        fetchAndInsertImages env imageType (fuel + 1) url w
          = fetchAndInsertImages env imageType fuel p.Next
              (insertLoop env imageType p.Results (w.emit (.get url))))
      ∧ (∀ p, env.unmarshal resp.body = .ok p → p.Results = [] → p.Next = "" →
        fetchAndInsertImages env imageType (fuel + 1) url w
          = some (.ok, w.emit (.get url))) := by
  have hreq := makeRequestWithRetry_ok env url w resp hok hstatus
  have hstep : ∀ p, env.unmarshal resp.body = .ok p →
      fetchAndInsertImages env imageType (fuel + 1) url w
        = fetchAndInsertImages env imageType fuel p.Next
            (insertLoop env imageType p.Results (w.emit (.get url))) := by
    intro p hp
    rw [fetchAndInsertImages, if_neg hurl, hreq]
    simp only [hp]
  refine ⟨?_, hstep, ?_⟩
  · intro e he
    rw [fetchAndInsertImages, if_neg hurl, hreq]
    simp only [he]
  · intro p hp hres hnext
    rw [hstep p hp, hres, hnext, fetchAndInsertImages_done]
    rfl

/-- Witness of C8 as amended: the library URL answered with 404 and the "object not
found" body, which decodes to the zero page, makes the function return nil; answered with
502 and an HTML body it makes the function return the parse error. -/
theorem fetchAndInsertImages_status_not_examined_witness :
    fetchAndInsertImages notFoundEnv "Verified Publisher" (0 + 1) libraryURL emptyWorld
        = some (.ok, emptyWorld.emit (.get libraryURL))
      ∧ fetchAndInsertImages badGatewayEnv "Verified Publisher" (0 + 1) libraryURL emptyWorld
        = some (.error ("Error parsing repositories JSON: "
            ++ "invalid character looking for beginning of value"),
          emptyWorld.emit (.get libraryURL)) :=
  ⟨(fetchAndInsertImages_status_not_examined notFoundEnv "Verified Publisher" 0 libraryURL
      emptyWorld ⟨404, notFoundBody⟩ (by decide) rfl (by decide)).2.2 {} rfl rfl rfl,
    (fetchAndInsertImages_status_not_examined badGatewayEnv "Verified Publisher" 0 libraryURL
      emptyWorld ⟨502, "<html>502 Bad Gateway</html>"⟩ (by decide) rfl (by decide)).1
      "invalid character looking for beginning of value" rfl⟩

/-! ## The nil response is never dereferenced -/

/-- The loop counts at most one retry per iteration, and when it is left by `break` it
holds a response and no error. -/
theorem retryLoop_break (env : Env) (url : String) (left : Nat) :
    ∀ (retries : Nat) (resp : Option Response) (err : Option String) (w : World),
      (retryLoop env url left retries resp err w).1 ≤ retries + left
        ∧ ((retryLoop env url left retries resp err w).1 < retries + left →
            ∃ r, (retryLoop env url left retries resp err w).2.1 = some r
              ∧ (retryLoop env url left retries resp err w).2.2.1 = none) := by
  induction left with
  | zero =>
    intro retries resp err w
    exact ⟨by simp [retryLoop], fun h => absurd h (by simp [retryLoop])⟩
  | succ left ih =>
    intro retries resp err w
    rw [retryLoop]
    simp only
    split_ifs with h1 h2
    · obtain ⟨i1, i2⟩ := ih (retries + 1) (env.server (requests w.trace) url).resp
        (env.server (requests w.trace) url).err
        (((w.emit (.get url)).emit (.stdout ("Received 429 Too Many Requests, retrying after "
          ++ toString 10 ++ " seconds...\n"))).emit (.sleep 10))
      exact ⟨by omega, fun h => i2 (by omega)⟩
    · refine ⟨by simp, fun _ => ?_⟩
      cases hr : env.server (requests w.trace) url with
      | ok r => exact ⟨r, rfl, rfl⟩
      | failed r e => rw [hr] at h2; simp [Reply.endsLoop] at h2
    · obtain ⟨i1, i2⟩ := ih (retries + 1) (env.server (requests w.trace) url).resp
        (env.server (requests w.trace) url).err (w.emit (.get url))
      exact ⟨by omega, fun h => i2 (by omega)⟩

/-- The function `makeRequestWithRetry` returns either the max-retries error without a
response, or a response without an error. -/
theorem makeRequestWithRetry_result (env : Env) (url : String) (w : World) :
    (makeRequestWithRetry env url w).1
        = (none, some ("max retries exceeded for URL: " ++ url))
      ∨ ∃ r, (makeRequestWithRetry env url w).1 = (some r, none) := by
  obtain ⟨hle, hbreak⟩ := retryLoop_break env url maxRetries 0 none none w
  unfold makeRequestWithRetry
  rcases hl : retryLoop env url maxRetries 0 none none w with ⟨retries, resp, err, w2⟩
  rw [hl] at hle hbreak
  simp only at hle hbreak ⊢
  split_ifs with h
  · exact Or.inl rfl
  · obtain ⟨r, h1, h2⟩ := hbreak (by omega)
    exact Or.inr ⟨r, by rw [h1, h2]⟩

/-- The function `fetchAndInsertImages` never dereferences a nil response. -/
theorem fetchAndInsertImages_no_nilDeref (env : Env) (imageType : String) (fuel : Nat) :
    ∀ (url : String) (w w2 : World),
      fetchAndInsertImages env imageType fuel url w ≠ some (.nilDeref, w2) := by
  induction fuel with
  | zero =>
    intro url w w2
    rw [fetchAndInsertImages]
    split_ifs <;> simp
  | succ fuel ih =>
    intro url w w2
    rw [fetchAndInsertImages]
    split_ifs with hurl
    · simp
    · have hres := makeRequestWithRetry_result env url w
      rcases hmr : makeRequestWithRetry env url w with ⟨⟨resp, err⟩, w3⟩
      rw [hmr] at hres
      rcases hres with h | ⟨r, h⟩
      · simp only [Prod.mk.injEq] at h
        obtain ⟨h1, h2⟩ := h
        subst h1 h2
        simp
      · simp only [Prod.mk.injEq] at h
        obtain ⟨h1, h2⟩ := h
        subst h1 h2
        simp only
        cases hdec : env.unmarshal r.body with
        | error e => simp
        | ok p => exact ih _ _ _

/-! ## Errors of the transport -/

/-- A reply with a transport error that is not a 429 does not end the loop of
`makeRequestWithRetry`: with an iteration left the URL is requested again at once,
without a wait. -/
theorem retryLoop_transport_error (env : Env) (url : String) (left retries : Nat)
    (resp0 : Option Response) (err0 : Option String) (w : World) (resp : Option Response)
    (e : String) (hfail : env.server (requests w.trace) url = .failed resp e)
    (hstatus : (Reply.failed resp e).tooManyRequests = false) :
    retryLoop env url (left + 1) retries resp0 err0 w
      = retryLoop env url left (retries + 1) resp (some e) (w.emit (.get url)) := by
  rw [retryLoop]
  simp [hfail, hstatus, Reply.endsLoop, Reply.resp, Reply.err]

end DockerHub2DB
